import Mathlib

/-!
Shallow embedding of the core pipeline of github_finder.py
(class GitHubTestRepoFinder): the rate-limited request executor,
the processed-repository cache check, the merged change-set
enumeration stage, the change-set classifier and the per-repository
orchestrator loop.  Machine strings are Lean String values; ISO
timestamps are modelled as integers (lexicographic comparison of
equal-format ISO strings agrees with chronological order); the
network is modelled as an explicit oracle passed to each function.
-/

namespace GhFinder

/-! ## String helpers (ASCII fragment of the Python str operations used) -/

/-- Occurrence of needle at some position of hay. -/
def containsSubAux (needle : List Char) : List Char → Bool
  | [] => needle.isEmpty
  | c :: rest => needle.isPrefixOf (c :: rest) || containsSubAux needle rest

/-- Substring test: mirrors the Python expression needle in hay. -/
def containsSub (needle hay : String) : Bool :=
  containsSubAux needle.toList hay.toList

/-- Suffix test: mirrors the Python expression s.endswith(suffixStr). -/
def strEndsWith (s suffixStr : String) : Bool :=
  suffixStr.toList.isSuffixOf s.toList

/-- Prefix test: mirrors the Python expression s.startswith(pre). -/
def strStartsWith (s pre : String) : Bool :=
  pre.toList.isPrefixOf s.toList

/-- Lower-casing: mirrors Python str.lower on the ASCII fragment. -/
def lowerStr (s : String) : String :=
  String.mk (s.data.map Char.toLower)

/-! ## Rate-limited request executor: handle_request_with_retry
(github_finder.py lines 107-134)

One request outcome per issued request, supplied by the oracle net
indexed by the attempt counter.  The result triple records the
returned payload (none when the function returns None), the list of
sleep durations performed in order, and the number of requests
issued. -/

/-- Outcome of a single HTTP GET, as discriminated by the source:
2xx success, 403 with its payload text, 404, another error status
(raise_for_status raises, caught as RequestException), or a
transport-level exception. -/
inductive HttpResult where
  | success : Nat → HttpResult
  | forbidden : String → HttpResult
  | notFound : HttpResult
  | otherStatus : HttpResult
  | transportError : HttpResult
deriving DecidableEq

/-- The retry loop of handle_request_with_retry.  The second argument
is the attempt index (Python variable attempt), the third the number
of loop iterations still available (max_retries - attempt). -/
def hrrAux (net : Nat → HttpResult) : Nat → Nat → Option Nat × List Nat × Nat
  | _, 0 => (none, [], 0)
  | attempt, fuel + 1 =>
    match net attempt with
    | HttpResult.success b => (some b, [], 1)
    | HttpResult.notFound => (none, [], 1)
    | HttpResult.forbidden text =>
      if containsSub "rate limit" (lowerStr text) then
        ((hrrAux net (attempt + 1) fuel).1,
         60 :: (hrrAux net (attempt + 1) fuel).2.1,
         (hrrAux net (attempt + 1) fuel).2.2 + 1)
      else (none, [], 1)
    | HttpResult.otherStatus =>
      match fuel with
      | 0 => (none, [], 1)
      | _ + 1 =>
        ((hrrAux net (attempt + 1) fuel).1,
         (2 ^ attempt) :: (hrrAux net (attempt + 1) fuel).2.1,
         (hrrAux net (attempt + 1) fuel).2.2 + 1)
    | HttpResult.transportError =>
      match fuel with
      | 0 => (none, [], 1)
      | _ + 1 =>
        ((hrrAux net (attempt + 1) fuel).1,
         (2 ^ attempt) :: (hrrAux net (attempt + 1) fuel).2.1,
         (hrrAux net (attempt + 1) fuel).2.2 + 1)

/-- handle_request_with_retry with its default max_retries = 3. -/
def handle_request_with_retry (net : Nat → HttpResult) (max_retries : Nat := 3) :
    Option Nat × List Nat × Nat :=
  hrrAux net 0 max_retries

/-! ## Processed-repository cache check: is_repo_processed
(github_finder.py lines 328-344)

datetime values are integers (seconds); datetime.fromisoformat is the
oracle parseIso, returning none exactly when it raises ValueError.
The metadata store maps a repository name to the value of its
last_processed field (an Option String, none when the key or the
field is absent). -/

/-- is_repo_processed: present in processed_repos, with a
last_processed value that is truthy (non-empty), parses, and lies
within max_age_days of now. -/
def is_repo_processed (parseIso : String → Option Int) (now : Int)
    (processed : List String) (metadata : List (String × Option String))
    (max_age_days : Int) (name : String) : Bool :=
  if name ∈ processed then
    match (metadata.lookup name).join with
    | none => false
    | some s =>
      if s = "" then false
      else
        match parseIso s with
        | none => false
        | some t => if now - t < max_age_days * 86400 then true else false
  else false

/-! ## Change-set enumeration stage: get_recent_merged_prs
(github_finder.py lines 456-503)

The forge is modelled as the list of pages it would return for
successive page numbers; a request past the end of that list returns
an empty page (which the source treats with the same break as an
empty response).  Merge timestamps are integers; a None merged_at is
an unmerged change-set. -/

/-- A closed pull request as listed by the forge. -/
structure PR where
  number : Nat
  merged_at : Option Nat
deriving DecidableEq

/-- merged_at is non-null and strictly older than the cutoff. -/
def isOldMerged (since : Nat) (pr : PR) : Bool :=
  match pr.merged_at with
  | none => false
  | some t => decide (t < since)

/-- merged_at is non-null and on or after the cutoff. -/
def isRecentMerged (since : Nat) (pr : PR) : Bool :=
  match pr.merged_at with
  | none => false
  | some t => decide (since ≤ t)

/-- The inner for-loop over one page (lines 483-489): collect merged
change-sets at or after the cutoff, stopping at the first one whose
merge time is strictly older than the cutoff. -/
def collectPage (since : Nat) : List PR → List PR
  | [] => []
  | pr :: rest =>
    match pr.merged_at with
    | none => collectPage since rest
    | some t => if since ≤ t then pr :: collectPage since rest else []

/-- The while-loop of get_recent_merged_prs (lines 464-501).  Returns
the accumulated change-sets and the number of page requests issued. -/
def fetchPages (since maxPRs : Nat) : List (List PR) → List PR → Nat → List PR × Nat
  | [], acc, fetched =>
    if maxPRs ≤ acc.length then (acc, fetched) else (acc, fetched + 1)
  | prs :: rest, acc, fetched =>
    if maxPRs ≤ acc.length then (acc, fetched)
    else if prs.length = 0 then (acc, fetched + 1)
    else if prs.length < 100 then (acc ++ collectPage since prs, fetched + 1)
    else fetchPages since maxPRs rest (acc ++ collectPage since prs) (fetched + 1)

/-- get_recent_merged_prs: the retained change-sets (truncated to
max_prs) together with the number of page requests issued. -/
def get_recent_merged_prs (since maxPRs : Nat) (pages : List (List PR)) :
    List PR × Nat :=
  ((fetchPages since maxPRs pages [] 0).1.take maxPRs,
   (fetchPages since maxPRs pages [] 0).2)

/-! ## Change-set classifier: analyze_pr_for_tests
(github_finder.py lines 564-667) -/

/-- One entry of the forge file-delta listing for a change-set. -/
structure FileDelta where
  filename : String
  status : String
  changes : Nat
  additions : Nat
  deletions : Nat
  patch : String
deriving DecidableEq

/-- The files_data dict built by get_pr_files_with_stats. -/
structure FilesData where
  files : List FileDelta
  total_additions : Nat
  total_deletions : Nat
  total_changes : Nat
deriving DecidableEq

/-- get_pr_files_with_stats, success path (lines 513-524). -/
def get_pr_files_with_stats (files : List FileDelta) : FilesData :=
  { files := files
    total_additions := (files.map FileDelta.additions).sum
    total_deletions := (files.map FileDelta.deletions).sum
    total_changes := (files.map FileDelta.changes).sum }

/-- The fixed test-file pattern set (lines 566-569). -/
def test_file_patterns : List String :=
  ["test_", "_test.py", "/test/", "/tests/", "conftest.py", "pytest", "unittest"]

/-- Test-file decision (line 596): some pattern occurs in the
lower-cased path. -/
def isTestFile (filename : String) : Bool :=
  test_file_patterns.any (fun p => containsSub p (lowerStr filename))

/-- _estimate_test_cases_from_additions (lines 633-637). -/
def estimate_test_cases_from_additions (additions : Nat) : Nat :=
  if additions < 5 then 0 else max 1 (additions / 7)

/-- Python regex class \s over the ASCII fragment. -/
def isPyWhitespace (c : Char) : Bool :=
  c == ' ' || c == '\t' || c == '\n' || c == '\r' || c == '\x0b' || c == '\x0c'

/-- Occurrence of the literal test at some position with a later (
character: the tail of the regex def.*test.*\( after the literal
def. -/
def hasTestThenParen : List Char → Bool
  | [] => false
  | c :: rest =>
    ("test".toList.isPrefixOf (c :: rest) && ((c :: rest).drop 4).contains '(')
      || hasTestThenParen rest

/-- One added line matches some pattern of test_function_patterns
(lines 647-654): a plus sign, optional whitespace, then one of the
anchored case-insensitive literals.  Every literal starts with a
non-whitespace character, so the greedy whitespace skip coincides
with regex backtracking. -/
def lineAddsTestPattern (line : String) : Bool :=
  match (lowerStr line).data with
  | [] => false
  | c :: rest =>
    if c == '+' then
      let s := rest.dropWhile isPyWhitespace
      ("def test_".toList.isPrefixOf s)
        || ("async def test_".toList.isPrefixOf s)
        || (("def".toList.isPrefixOf s) && hasTestThenParen (s.drop 3))
        || ("class test".toList.isPrefixOf s)
        || ("@pytest.mark.".toList.isPrefixOf s)
        || ("@unittest.".toList.isPrefixOf s)
    else false

/-- Contribution of a single patch line, in half test cases: the
source adds 1, 3 or 0.5 depending on substrings of the lower-cased
line, only when some pattern matched at all (lines 656-665). -/
def lineTestHalves (line : String) : Nat :=
  if lineAddsTestPattern line then
    if containsSub "def test_" (lowerStr line)
        || containsSub "async def test_" (lowerStr line) then 2
    else if containsSub "class test" (lowerStr line) then 6
    else if containsSub "@pytest.mark" (lowerStr line)
        || containsSub "@unittest" (lowerStr line) then 1
    else 0
  else 0

/-- _count_new_test_cases_in_patch (lines 639-667): sum the per-line
contributions and truncate the final float to an integer, which in
half units is division by two. -/
def countNewTestCasesInPatch (patch : String) : Nat :=
  if patch = "" then 0
  else ((patch.splitOn "\n").foldl (fun acc line => acc + lineTestHalves line) 0) / 2

/-- One element of the test_files_with_new_cases list.  Entries for
newly added files carry no deletions key, hence the Option. -/
structure TestFileEntry where
  filename : String
  status : String
  additions : Nat
  deletions : Option Nat
  estimated_test_cases : Nat
deriving DecidableEq

/-- The analysis dict built by analyze_pr_for_tests. -/
structure Analysis where
  has_new_test_cases : Bool
  has_code_changes : Bool
  test_files_with_new_cases : List TestFileEntry
  code_files : List String
  new_test_files : List String
  total_additions : Nat
  total_deletions : Nat
  total_changes : Nat
  new_test_cases_count : Nat
  test_file_changes : Nat
  code_file_changes : Nat
  test_additions_only : Nat
deriving DecidableEq

/-- The analysis dict as initialised on lines 573-586. -/
def initAnalysis (fd : FilesData) : Analysis :=
  { has_new_test_cases := false
    has_code_changes := false
    test_files_with_new_cases := []
    code_files := []
    new_test_files := []
    total_additions := fd.total_additions
    total_deletions := fd.total_deletions
    total_changes := fd.total_changes
    new_test_cases_count := 0
    test_file_changes := 0
    code_file_changes := 0
    test_additions_only := 0 }

/-- The body of the per-file loop of analyze_pr_for_tests
(lines 588-629), with the two in-place counter updates of the test
branch inlined into each of its terminal cases. -/
def analyzeStep (a : Analysis) (f : FileDelta) : Analysis :=
  if isTestFile f.filename then
    if f.status = "added" then
      { a with
        test_file_changes := a.test_file_changes + f.changes
        test_additions_only := a.test_additions_only + f.additions
        new_test_files := a.new_test_files ++ [f.filename]
        has_new_test_cases := true
        test_files_with_new_cases := a.test_files_with_new_cases ++
          [{ filename := f.filename
             status := "new_file"
             additions := f.additions
             deletions := none
             estimated_test_cases := estimate_test_cases_from_additions f.additions }]
        new_test_cases_count :=
          a.new_test_cases_count + estimate_test_cases_from_additions f.additions }
    else if f.status = "modified" ∧ 0 < f.additions then
      if 0 < countNewTestCasesInPatch f.patch then
        { a with
          test_file_changes := a.test_file_changes + f.changes
          test_additions_only := a.test_additions_only + f.additions
          has_new_test_cases := true
          test_files_with_new_cases := a.test_files_with_new_cases ++
            [{ filename := f.filename
               status := "modified"
               additions := f.additions
               deletions := some f.deletions
               estimated_test_cases := countNewTestCasesInPatch f.patch }]
          new_test_cases_count :=
            a.new_test_cases_count + countNewTestCasesInPatch f.patch }
      else
        { a with
          test_file_changes := a.test_file_changes + f.changes
          test_additions_only := a.test_additions_only + f.additions }
    else
      { a with
        test_file_changes := a.test_file_changes + f.changes
        test_additions_only := a.test_additions_only + f.additions }
  else if strEndsWith f.filename ".py" then
    { a with
      has_code_changes := true
      code_files := a.code_files ++ [f.filename]
      code_file_changes := a.code_file_changes + f.changes }
  else a

/-- analyze_pr_for_tests (lines 564-631). -/
def analyze_pr_for_tests (fd : FilesData) : Analysis :=
  fd.files.foldl analyzeStep (initAnalysis fd)

/-- The qualification test applied by the orchestrator on line 719. -/
def prQualifies (fd : FilesData) : Bool :=
  (analyze_pr_for_tests fd).has_new_test_cases
    && (analyze_pr_for_tests fd).has_code_changes
    && decide (0 < (analyze_pr_for_tests fd).new_test_cases_count)

/-! ## Test-suite probe: has_testing_suite
(github_finder.py lines 529-562) -/

/-- One entry of the parsed root-content listing: whether the JSON
element is an object, and its name field (empty by default). -/
structure RootItem where
  isDict : Bool
  name : String
deriving DecidableEq

/-- The outcome of fetching and parsing the root-content listing. -/
inductive ContentsResponse where
  | noResponse : ContentsResponse
  | parseError : ContentsResponse
  | nonListJson : ContentsResponse
  | listing : List RootItem → ContentsResponse
deriving DecidableEq

/-- The fixed marker set (lines 531-535). -/
def test_indicators : List String :=
  ["tests/", "test/", "testing/", "pytest.ini", "tox.ini", "setup.cfg",
   ".github/workflows/", "conftest.py"]

/-- has_testing_suite: no response or a parse failure yields true;
a parsed non-list yields false; otherwise scan the entry names for a
marker substring or a name starting with test_. -/
def has_testing_suite (r : ContentsResponse) : Bool :=
  match r with
  | ContentsResponse.noResponse => true
  | ContentsResponse.parseError => true
  | ContentsResponse.nonListJson => false
  | ContentsResponse.listing items =>
    if test_indicators.any (fun ind =>
        ((items.filter (fun it => it.isDict)).map (fun it => it.name)).any
          (fun fn => containsSub ind fn)) then true
    else if items.any (fun it => it.isDict && strStartsWith it.name "test_") then true
    else false

/-! ## Orchestrator per-repository flow: find_active_test_repos
(github_finder.py lines 669-752)

The stages recorded in the trace are the forge interactions the body
performs for one repository, in program order. -/

/-- A stage invocation observable in the per-repository flow. -/
inductive Stage where
  | suiteProbe : Stage
  | enumeration : Stage
  | fileFetch : Nat → Stage
  | classify : Nat → Stage
deriving DecidableEq

/-- The fields of an enumerated change-set the orchestrator reads. -/
structure PRSumm where
  number : Nat
deriving DecidableEq

/-- The forge, as seen while processing one repository: its root
listing, its enumerated merged change-sets, and the file deltas of
each change-set (an empty list models both an empty and a failed
delta fetch, which the source treats alike on line 714). -/
structure World where
  contents : ContentsResponse
  mergedPRs : List PRSumm
  filesOf : Nat → List FileDelta

/-- What mark_repo_processed records and what the repository loop
contributes, for one repository. -/
structure RepoOutcome where
  prs_found : Nat
  qualifying : List Nat
  stages : List Stage
deriving DecidableEq

/-- The per-change-set loop (lines 712-727): fetch deltas, skip empty
ones, classify the rest, and keep the numbers of qualifying
change-sets in order. -/
def processPRs (w : World) : List PRSumm → List Nat × List Stage
  | [] => ([], [])
  | pr :: rest =>
    if (get_pr_files_with_stats (w.filesOf pr.number)).files.isEmpty then
      ((processPRs w rest).1,
       Stage.fileFetch pr.number :: (processPRs w rest).2)
    else if prQualifies (get_pr_files_with_stats (w.filesOf pr.number)) then
      (pr.number :: (processPRs w rest).1,
       Stage.fileFetch pr.number :: Stage.classify pr.number :: (processPRs w rest).2)
    else
      ((processPRs w rest).1,
       Stage.fileFetch pr.number :: Stage.classify pr.number :: (processPRs w rest).2)

/-- The body of the repository loop for a single repository
(lines 689-729): size gate, suite probe, enumeration, per-change-set
classification, and the processed-cache record. -/
def processRepo (max_size_mb : Nat) (repo_size_kb : Nat) (w : World) : RepoOutcome :=
  if max_size_mb * 1024 < repo_size_kb then
    { prs_found := 0, qualifying := [], stages := [] }
  else if !(has_testing_suite w.contents) then
    { prs_found := 0, qualifying := [], stages := [Stage.suiteProbe] }
  else if w.mergedPRs.isEmpty then
    { prs_found := 0, qualifying := [], stages := [Stage.suiteProbe, Stage.enumeration] }
  else
    { prs_found := (processPRs w w.mergedPRs).1.length
      qualifying := (processPRs w w.mergedPRs).1
      stages := Stage.suiteProbe :: Stage.enumeration :: (processPRs w w.mergedPRs).2 }

/-- A discovered repository together with its view of the forge. -/
structure RepoCase where
  name : String
  sizeKB : Nat
  world : World

/-- The repository loop (lines 689-748).  Returns the accumulated
qualifying results as (repository, change-set number) pairs, the
cache records written in order, and the lengths at which the
target-reached message fires; target_prs feeds only that message. -/
def runLoop (cap target : Nat) :
    List RepoCase → List (String × Nat) →
      List (String × Nat) × List (String × Nat) × List Nat
  | [], acc => (acc, [], [])
  | rc :: rest, acc =>
    ((runLoop cap target rest
        (acc ++ (processRepo cap rc.sizeKB rc.world).qualifying.map
          (fun n => (rc.name, n)))).1,
     (rc.name, (processRepo cap rc.sizeKB rc.world).prs_found) ::
       (runLoop cap target rest
         (acc ++ (processRepo cap rc.sizeKB rc.world).qualifying.map
           (fun n => (rc.name, n)))).2.1,
     if target ≤ (acc ++ (processRepo cap rc.sizeKB rc.world).qualifying.map
         (fun n => (rc.name, n))).length then
       (acc ++ (processRepo cap rc.sizeKB rc.world).qualifying.map
         (fun n => (rc.name, n))).length ::
         (runLoop cap target rest
           (acc ++ (processRepo cap rc.sizeKB rc.world).qualifying.map
             (fun n => (rc.name, n)))).2.2
     else
       (runLoop cap target rest
         (acc ++ (processRepo cap rc.sizeKB rc.world).qualifying.map
           (fun n => (rc.name, n)))).2.2)

/-- find_active_test_repos, from the empty accumulator. -/
def find_active_test_repos (cap target : Nat) (repos : List RepoCase) :
    List (String × Nat) × List (String × Nat) × List Nat :=
  runLoop cap target repos []

/-! ## Concrete inputs used by witnesses and counterexamples -/

/-- A change-set merged strictly before the cutoff 10. -/
def stalePR : PR := { number := 1, merged_at := some 5 }

/-- A full page (100 items) whose first change-set is stale. -/
def staleFullPage : List PR := List.replicate 100 stalePR

/-- A change-set merged after the cutoff 10. -/
def recentPR : PR := { number := 1, merged_at := some 20 }

/-- Oracle answering 404 to every request. -/
def netNotFound : Nat → HttpResult := fun _ => HttpResult.notFound

/-- Oracle answering a rate-limited 403 first, then a success. -/
def netRateLimited : Nat → HttpResult := fun i =>
  if i = 0 then HttpResult.forbidden "api rate limit exceeded for 203.0.113.5"
  else HttpResult.success 7

/-- Oracle answering a non-rate-limit 403 to every request. -/
def netForbiddenOther : Nat → HttpResult := fun _ =>
  HttpResult.forbidden "resource protected by organization saml"

/-- An added test file with 21 added lines. -/
def fdNewTest : FileDelta :=
  { filename := "tests/test_foo.py", status := "added", changes := 21,
    additions := 21, deletions := 0, patch := "" }

/-- A modified production code file. -/
def fdCode : FileDelta :=
  { filename := "app/foo.py", status := "modified", changes := 10,
    additions := 10, deletions := 0, patch := "" }

/-- A file that is neither a test file nor a .py file. -/
def fdReadme : FileDelta :=
  { filename := "README.md", status := "modified", changes := 3,
    additions := 2, deletions := 1, patch := "" }

/-- A small production file used next to fdReadme. -/
def fdApp : FileDelta :=
  { filename := "app.py", status := "modified", changes := 5,
    additions := 3, deletions := 2, patch := "" }

/-- A delta list with one qualifying test file and one code file. -/
def exFilesData : FilesData := get_pr_files_with_stats [fdNewTest, fdCode]

/-- A world for a repository that is skipped on size alone. -/
def sizeSkipWorld : World :=
  { contents := ContentsResponse.noResponse, mergedPRs := [], filesOf := fun _ => [] }

/-- A world whose single change-set qualifies. -/
def demoWorld : World :=
  { contents := ContentsResponse.listing [{ isDict := true, name := "tox.ini" }]
    mergedPRs := [{ number := 1 }]
    filesOf := fun _ => [fdNewTest, fdCode] }

/-- A small repository carrying demoWorld. -/
def demoRepoCase : RepoCase :=
  { name := "octo/demo", sizeKB := 50000, world := demoWorld }

/-! ## Helper lemmas -/

/-- The per-page scan collects exactly the merged-and-recent entries
of the longest prefix that contains no stale merged entry. -/
lemma collectPage_eq (since : Nat) : ∀ p : List PR,
    collectPage since p
      = (p.takeWhile (fun x => ! isOldMerged since x)).filter
          (fun x => isRecentMerged since x)
  | [] => rfl
  | pr :: rest => by
    cases h : pr.merged_at with
    | none =>
      have ho : isOldMerged since pr = false := by simp [isOldMerged, h]
      have hr : isRecentMerged since pr = false := by simp [isRecentMerged, h]
      simp [collectPage, h, List.takeWhile_cons, List.filter_cons, ho, hr,
        collectPage_eq since rest]
    | some t =>
      by_cases hle : since ≤ t
      · have ho : isOldMerged since pr = false := by
          simp only [isOldMerged, h, decide_eq_false_iff_not]
          omega
        have hr : isRecentMerged since pr = true := by
          simp [isRecentMerged, h, hle]
        simp [collectPage, h, hle, List.takeWhile_cons, List.filter_cons, ho, hr,
          collectPage_eq since rest]
      · have ho : isOldMerged since pr = true := by
          simp only [isOldMerged, h, decide_eq_true_eq]
          omega
        simp [collectPage, h, hle, List.takeWhile_cons, ho]

/-- Each classifier step keeps has_new_test_cases equivalent to
test_files_with_new_cases being non-empty and has_code_changes
equivalent to code_files being non-empty. -/
lemma analyzeStep_flags (a : Analysis) (f : FileDelta)
    (h1 : a.has_new_test_cases = true ↔ a.test_files_with_new_cases ≠ [])
    (h2 : a.has_code_changes = true ↔ a.code_files ≠ []) :
    ((analyzeStep a f).has_new_test_cases = true
        ↔ (analyzeStep a f).test_files_with_new_cases ≠ [])
    ∧ ((analyzeStep a f).has_code_changes = true
        ↔ (analyzeStep a f).code_files ≠ []) := by
  unfold analyzeStep
  split_ifs <;> simp_all

/-- The flag equivalences hold after folding the step over any file
list. -/
lemma foldl_flags (files : List FileDelta) (a : Analysis)
    (h1 : a.has_new_test_cases = true ↔ a.test_files_with_new_cases ≠ [])
    (h2 : a.has_code_changes = true ↔ a.code_files ≠ []) :
    ((files.foldl analyzeStep a).has_new_test_cases = true
        ↔ (files.foldl analyzeStep a).test_files_with_new_cases ≠ [])
    ∧ ((files.foldl analyzeStep a).has_code_changes = true
        ↔ (files.foldl analyzeStep a).code_files ≠ []) := by
  induction files generalizing a with
  | nil => exact ⟨h1, h2⟩
  | cons f rest ih =>
    simp only [List.foldl_cons]
    obtain ⟨g1, g2⟩ := analyzeStep_flags a f h1 h2
    exact ih _ g1 g2

/-- Each classifier step keeps every code-file entry failing the test
patterns and every test-bucket entry passing them. -/
lemma analyzeStep_buckets (a : Analysis) (f : FileDelta)
    (h1 : ∀ p ∈ a.code_files, isTestFile p = false)
    (h2 : ∀ p ∈ a.new_test_files, isTestFile p = true)
    (h3 : ∀ e ∈ a.test_files_with_new_cases, isTestFile e.filename = true) :
    (∀ p ∈ (analyzeStep a f).code_files, isTestFile p = false)
    ∧ (∀ p ∈ (analyzeStep a f).new_test_files, isTestFile p = true)
    ∧ (∀ e ∈ (analyzeStep a f).test_files_with_new_cases,
        isTestFile e.filename = true) := by
  unfold analyzeStep
  by_cases ht : isTestFile f.filename = true
  · rw [if_pos ht]
    by_cases hA : f.status = "added"
    · rw [if_pos hA]
      refine ⟨h1, ?_, ?_⟩
      · intro x hx
        rcases List.mem_append.mp hx with hx | hx
        · exact h2 x hx
        · rw [List.mem_singleton.mp hx]
          exact ht
      · intro e he
        rcases List.mem_append.mp he with he | he
        · exact h3 e he
        · rw [List.mem_singleton.mp he]
          exact ht
    · rw [if_neg hA]
      by_cases hM : f.status = "modified" ∧ 0 < f.additions
      · rw [if_pos hM]
        by_cases hP : 0 < countNewTestCasesInPatch f.patch
        · rw [if_pos hP]
          refine ⟨h1, h2, ?_⟩
          intro e he
          rcases List.mem_append.mp he with he | he
          · exact h3 e he
          · rw [List.mem_singleton.mp he]
            exact ht
        · rw [if_neg hP]
          exact ⟨h1, h2, h3⟩
      · rw [if_neg hM]
        exact ⟨h1, h2, h3⟩
  · rw [if_neg ht]
    by_cases hPy : strEndsWith f.filename ".py" = true
    · rw [if_pos hPy]
      refine ⟨?_, h2, h3⟩
      intro x hx
      rcases List.mem_append.mp hx with hx | hx
      · exact h1 x hx
      · rw [List.mem_singleton.mp hx]
        exact Bool.not_eq_true _ ▸ ht
    · rw [if_neg hPy]
      exact ⟨h1, h2, h3⟩

/-- The bucket discipline holds after folding the step over any file
list. -/
lemma foldl_buckets (files : List FileDelta) (a : Analysis)
    (h1 : ∀ p ∈ a.code_files, isTestFile p = false)
    (h2 : ∀ p ∈ a.new_test_files, isTestFile p = true)
    (h3 : ∀ e ∈ a.test_files_with_new_cases, isTestFile e.filename = true) :
    (∀ p ∈ (files.foldl analyzeStep a).code_files, isTestFile p = false)
    ∧ (∀ p ∈ (files.foldl analyzeStep a).new_test_files, isTestFile p = true)
    ∧ (∀ e ∈ (files.foldl analyzeStep a).test_files_with_new_cases,
        isTestFile e.filename = true) := by
  induction files generalizing a with
  | nil => exact ⟨h1, h2, h3⟩
  | cons f rest ih =>
    simp only [List.foldl_cons]
    obtain ⟨g1, g2, g3⟩ := analyzeStep_buckets a f h1 h2 h3
    exact ih _ g1 g2 g3

/-- A file that matches no test pattern and does not end in .py
leaves the classifier state untouched. -/
lemma analyzeStep_ignored (a : Analysis) (f : FileDelta)
    (h1 : isTestFile f.filename = false)
    (h2 : strEndsWith f.filename ".py" = false) :
    analyzeStep a f = a := by
  unfold analyzeStep
  simp [h1, h2]

/-- The repository loop ignores target_prs in its qualifying results
and in its cache records. -/
lemma runLoop_target_agnostic (cap t1 t2 : Nat) (repos : List RepoCase) :
    ∀ acc, (runLoop cap t1 repos acc).1 = (runLoop cap t2 repos acc).1
      ∧ (runLoop cap t1 repos acc).2.1 = (runLoop cap t2 repos acc).2.1 := by
  induction repos with
  | nil => intro acc; exact ⟨rfl, rfl⟩
  | cons rc rest ih =>
    intro acc
    simp only [runLoop]
    exact ⟨(ih _).1, by rw [(ih _).2]⟩

/-- The repository loop writes one cache record per discovered
repository, in order. -/
lemma runLoop_processes_all (cap t : Nat) (repos : List RepoCase) :
    ∀ acc, ((runLoop cap t repos acc).2.1).map Prod.fst
      = repos.map RepoCase.name := by
  induction repos with
  | nil => intro acc; rfl
  | cons rc rest ih =>
    intro acc
    simp only [runLoop, List.map_cons]
    rw [ih]

/-! ## Claim theorems -/

/-- Claim C1, counterexample.  The claim states that no additional
page request is issued after the first change-set whose merge time is
strictly older than the cutoff has been seen.  Here the first page
(100 items) starts with such a stale change-set, yet the enumeration
stage issues a second page request: the request counter reaches 2. -/
theorem C1_counterexample :
    isOldMerged 10 stalePR = true
    ∧ stalePR ∈ staleFullPage
    ∧ (get_recent_merged_prs 10 200 [staleFullPage, []]).2 = 2 := by
  decide

/-- Claim C1, amended.  On meeting the first stale change-set, the
stage stops scanning the remainder of the current page only (the page
contributes exactly the merged-and-recent change-sets before the first
stale one); when the page is full (100 items) and fewer than max_prs
change-sets have been accumulated, the next page request is still
issued. -/
theorem C1_amended_thm (since maxPRs fetched : Nat) (p : List PR)
    (rest : List (List PR)) (acc : List PR)
    (hfull : p.length = 100) (hacc : acc.length < maxPRs) :
    collectPage since p
        = (p.takeWhile (fun x => ! isOldMerged since x)).filter
            (fun x => isRecentMerged since x)
    ∧ fetchPages since maxPRs (p :: rest) acc fetched
        = fetchPages since maxPRs rest (acc ++ collectPage since p) (fetched + 1) := by
  refine ⟨collectPage_eq since p, ?_⟩
  have h1 : ¬ maxPRs ≤ acc.length := Nat.not_le.mpr hacc
  have h2 : ¬ p.length = 0 := by omega
  have h3 : ¬ p.length < 100 := by omega
  simp only [fetchPages]
  rw [if_neg h1, if_neg h2, if_neg h3]

/-- Claim C1, witness for the amended theorem at a concrete full
page. -/
theorem C1_amended_witness :
    fetchPages 10 200 [List.replicate 100 recentPR] [] 0
      = fetchPages 10 200 [] ([] ++ collectPage 10 (List.replicate 100 recentPR)) 1 :=
  (C1_amended_thm 10 200 0 (List.replicate 100 recentPR) [] []
    (by simp) (by decide)).2

/-- Claim C3: the new-test-file estimator returns 0 below 5 added
lines and max 1 (additions / 7) from 5 on; at 21 added lines the
estimate is exactly 3. -/
theorem C3_thm (a : Nat) :
    (a < 5 → estimate_test_cases_from_additions a = 0)
    ∧ (5 ≤ a → estimate_test_cases_from_additions a = max 1 (a / 7))
    ∧ estimate_test_cases_from_additions 21 = 3 := by
  refine ⟨fun h => ?_, fun h => ?_, by decide⟩
  · simp [estimate_test_cases_from_additions, h]
  · simp [estimate_test_cases_from_additions, Nat.not_lt.mpr h]

/-- Claim C3, witness at 4 and 21 added lines. -/
theorem C3_witness :
    estimate_test_cases_from_additions 4 = 0
    ∧ estimate_test_cases_from_additions 21 = max 1 (21 / 7) :=
  ⟨(C3_thm 4).1 (by decide), (C3_thm 21).2.1 (by decide)⟩

/-- Claim C5: a repository whose size strictly exceeds
max_size_mb * 1024 KB triggers no stage at all (in particular not the
enumeration stage nor any later one) and is recorded as processed
with a qualifying count of zero. -/
theorem C5_thm (cap sz : Nat) (w : World) (h : cap * 1024 < sz) :
    (processRepo cap sz w).stages = []
    ∧ (processRepo cap sz w).prs_found = 0
    ∧ (processRepo cap sz w).qualifying = [] := by
  unfold processRepo
  rw [if_pos h]
  exact ⟨rfl, rfl, rfl⟩

/-- Claim C5, witness: the scenario of a 150000 KB repository against
a 100 MB cap. -/
theorem C5_witness :
    (processRepo 100 150000 sizeSkipWorld).stages = []
    ∧ (processRepo 100 150000 sizeSkipWorld).prs_found = 0 := by
  have h := C5_thm 100 150000 sizeSkipWorld (by decide)
  exact ⟨h.1, h.2.1⟩

/-- Claim C6: the request executor returns no result immediately on a
404 (one request, no sleep, no retry); on a 403 whose payload
mentions a rate limit it records the fixed 60 second sleep and
continues with the remaining attempts of the same budget; on any
other 403 it returns no result immediately without retrying. -/
theorem C6_thm (net : Nat → HttpResult) (attempt fuel : Nat) (text : String) :
    (net attempt = HttpResult.notFound →
        hrrAux net attempt (fuel + 1) = (none, [], 1))
    ∧ (net attempt = HttpResult.forbidden text →
        (containsSub "rate limit" (lowerStr text) = true →
            hrrAux net attempt (fuel + 1) =
              ((hrrAux net (attempt + 1) fuel).1,
               60 :: (hrrAux net (attempt + 1) fuel).2.1,
               (hrrAux net (attempt + 1) fuel).2.2 + 1))
        ∧ (containsSub "rate limit" (lowerStr text) = false →
            hrrAux net attempt (fuel + 1) = (none, [], 1))) := by
  constructor
  · intro h
    simp [hrrAux, h]
  · intro h
    constructor
    · intro hrl
      simp [hrrAux, h, hrl]
    · intro hrl
      simp [hrrAux, h, hrl]

/-- Claim C6, witness: each of the three 403/404 behaviours at a
concrete oracle with a budget of three attempts. -/
theorem C6_witness :
    hrrAux netNotFound 0 3 = (none, [], 1)
    ∧ hrrAux netRateLimited 0 3 =
        ((hrrAux netRateLimited 1 2).1,
         60 :: (hrrAux netRateLimited 1 2).2.1,
         (hrrAux netRateLimited 1 2).2.2 + 1)
    ∧ hrrAux netForbiddenOther 0 3 = (none, [], 1) := by
  refine ⟨(C6_thm netNotFound 0 2 "").1 rfl, ?_, ?_⟩
  · exact ((C6_thm netRateLimited 0 2 "api rate limit exceeded for 203.0.113.5").2
      rfl).1 (by decide)
  · exact ((C6_thm netForbiddenOther 0 2 "resource protected by organization saml").2
      rfl).2 (by decide)

/-- Claim C9, counterexample.  The claim states that a response that
is not the expected listing shape is treated as having a testing
suite; the probe answers false on a parsed non-list response. -/
theorem C9_counterexample :
    has_testing_suite ContentsResponse.nonListJson = false := rfl

/-- Claim C9, amended.  A failed fetch or an error while parsing the
root listing is treated as having a testing suite (fail open), but a
successfully parsed response that is not a list yields false, so the
repository is skipped rather than enumerated. -/
theorem C9_amended_thm :
    has_testing_suite ContentsResponse.noResponse = true
    ∧ has_testing_suite ContentsResponse.parseError = true
    ∧ has_testing_suite ContentsResponse.nonListJson = false :=
  ⟨rfl, rfl, rfl⟩

/-- Claim C2: the orchestrator marks a change-set as qualifying iff
the classifier recorded at least one file contributing new test cases
(equivalently, has_new_test_cases, which holds iff
test_files_with_new_cases is non-empty), at least one code file is
present (has_code_changes, iff code_files is non-empty), and the
estimated new-test-case total is strictly positive. -/
theorem C2_thm (fd : FilesData) :
    (prQualifies fd = true ↔
        ((analyze_pr_for_tests fd).has_new_test_cases = true
          ∧ (analyze_pr_for_tests fd).has_code_changes = true
          ∧ 0 < (analyze_pr_for_tests fd).new_test_cases_count))
    ∧ ((analyze_pr_for_tests fd).has_new_test_cases = true
        ↔ (analyze_pr_for_tests fd).test_files_with_new_cases ≠ [])
    ∧ ((analyze_pr_for_tests fd).has_code_changes = true
        ↔ (analyze_pr_for_tests fd).code_files ≠ []) := by
  have h := foldl_flags fd.files (initAnalysis fd) (by simp [initAnalysis])
    (by simp [initAnalysis])
  refine ⟨?_, h.1, h.2⟩
  simp [prQualifies, Bool.and_eq_true, decide_eq_true_iff, and_assoc]

/-- Claim C4: the test-file and code-file buckets are mutually
exclusive; in particular a path matching a test pattern never lands
among the code files. -/
theorem C4_thm (fd : FilesData) (p : String) :
    (¬ (p ∈ (analyze_pr_for_tests fd).code_files
        ∧ (p ∈ (analyze_pr_for_tests fd).new_test_files
            ∨ p ∈ ((analyze_pr_for_tests fd).test_files_with_new_cases.map
                TestFileEntry.filename))))
    ∧ (isTestFile p = true → p ∉ (analyze_pr_for_tests fd).code_files) := by
  obtain ⟨h1, h2, h3⟩ := foldl_buckets fd.files (initAnalysis fd)
    (by simp [initAnalysis]) (by simp [initAnalysis]) (by simp [initAnalysis])
  constructor
  · rintro ⟨hc, hm | hm⟩
    · have := h1 p hc
      have := h2 p hm
      simp_all
    · obtain ⟨e, he, hfe⟩ := List.mem_map.mp hm
      have := h1 p hc
      have := h3 e he
      rw [hfe] at this
      simp_all
  · intro htp hc
    have := h1 p hc
    simp_all

/-- Claim C4, witness at a delta list holding one test file and one
code file. -/
theorem C4_witness :
    ("tests/test_foo.py" : String) ∉ (analyze_pr_for_tests exFilesData).code_files :=
  (C4_thm exFilesData "tests/test_foo.py").2 (by decide)

/-- Claim C7: the cache check answers true exactly when the name is
in the processed set and its recorded last_processed value is a
non-empty string that parses to a timestamp within the freshness
window; a missing or malformed timestamp therefore yields false. -/
theorem C7_thm (parseIso : String → Option Int) (now : Int)
    (processed : List String) (metadata : List (String × Option String))
    (max_age_days : Int) (name : String) :
    is_repo_processed parseIso now processed metadata max_age_days name = true ↔
      (name ∈ processed
        ∧ ∃ s, (metadata.lookup name).join = some s ∧ s ≠ ""
            ∧ ∃ t, parseIso s = some t ∧ now - t < max_age_days * 86400) := by
  unfold is_repo_processed
  by_cases hp : name ∈ processed
  · rw [if_pos hp]
    cases hj : (metadata.lookup name).join with
    | none => simp [hp, hj]
    | some s =>
      by_cases hs : s = ""
      · simp [hp, hj, hs]
      · cases hpt : parseIso s with
        | none => simp [hp, hj, hs, hpt]
        | some t =>
          by_cases hlt : now - t < max_age_days * 86400
          · simp [hp, hj, hs, hpt, hlt]
          · simp [hp, hj, hs, hpt, hlt]
  · rw [if_neg hp]
    simp [hp]

/-- Claim C8: the qualifying results and the cache records of the
repository loop do not depend on target_prs, every discovered
repository receives a cache record, and at a concrete input the final
count strictly exceeds the target. -/
theorem C8_thm :
    (∀ cap t1 t2 repos acc,
        ((runLoop cap t1 repos acc).1 = (runLoop cap t2 repos acc).1
          ∧ (runLoop cap t1 repos acc).2.1 = (runLoop cap t2 repos acc).2.1)
        ∧ ((runLoop cap t1 repos acc).2.1).map Prod.fst
            = repos.map RepoCase.name)
    ∧ 0 < (find_active_test_repos 100 0 [demoRepoCase]).1.length := by
  constructor
  · intro cap t1 t2 repos acc
    exact ⟨runLoop_target_agnostic cap t1 t2 repos acc,
      runLoop_processes_all cap t1 repos acc⟩
  · decide

/-- Claim C10: a file that matches no test pattern and does not end
in .py is ignored by the classifier: removing it from the delta list
leaves the whole analysis unchanged. -/
theorem C10_thm (xs ys : List FileDelta) (f : FileDelta) (ta td tc : Nat)
    (h1 : isTestFile f.filename = false)
    (h2 : strEndsWith f.filename ".py" = false) :
    analyze_pr_for_tests ⟨xs ++ f :: ys, ta, td, tc⟩
      = analyze_pr_for_tests ⟨xs ++ ys, ta, td, tc⟩ := by
  unfold analyze_pr_for_tests
  simp only [List.foldl_append, List.foldl_cons]
  rw [analyzeStep_ignored _ f h1 h2]
  rfl

/-- Claim C10, witness: a README file next to a code file changes
nothing. -/
theorem C10_witness :
    analyze_pr_for_tests ⟨[fdReadme, fdApp], 7, 2, 9⟩
      = analyze_pr_for_tests ⟨[fdApp], 7, 2, 9⟩ :=
  C10_thm [] [fdApp] fdReadme 7 2 9 (by decide) (by decide)

end GhFinder
